import Mathlib

/-!
Verification of the Risk Assessment & Recommendation Decision Engine of the
University-dropout-prevention-agent repository.

Part 1 embeds `src/dropout_prevention_agent/agent/risk_calculator.py`:
Python floats (GPA, attendance percentage) are modelled as rationals,
Python ints (counts, scores) as integers.
-/

namespace DropoutPrevention

/-- Per-student academic signals (`RiskInput` in risk_calculator.py).
`as_of` is a timestamp that `calculate_risk` never reads; it is modelled
as an optional integer epoch. -/
structure RiskInput where
  student_id : String
  current_gpa : ℚ
  previous_gpa : Option ℚ
  attendance_pct : ℚ
  lms_last_active_days : ℤ
  failed_modules_count : ℤ := 0
  missed_assessments_count : ℤ := 0
  course_load_credits : ℤ := 0
  as_of : Option ℤ := none
deriving Repr, DecidableEq

/-- One entry of the explainable breakdown (`reasons` elements in
risk_calculator.py): rule identifier, points contributed, evidence
key-value pairs (numeric values), human-readable explanation. -/
structure Reason where
  rule : String
  points : ℤ
  evidence : List (String × ℚ)
  explanation : String
deriving Repr, DecidableEq

/-- `RiskResult` in risk_calculator.py. -/
structure RiskResult where
  student_id : String
  score : ℤ
  level : String
  reasons : List Reason
deriving Repr, DecidableEq

/-- `clamp_score` in risk_calculator.py: `max(0, min(100, score))`. -/
def clamp_score (score : ℤ) : ℤ :=
  max 0 (min 100 score)

/-- `risk_level` in risk_calculator.py. -/
def risk_level (score : ℤ) : String :=
  if score ≤ 30 then "LOW"
  else if score ≤ 60 then "MEDIUM"
  else "HIGH"

/-- Models Python `int(x or 0)` applied to an int: `0 or 0` is `0` and any
nonzero int is truthy, so on ints this is the identity. -/
def py_int_or_zero (n : ℤ) : ℤ := n

/-- Models Python `round(x, 3)` as used for the `gpa_drop` evidence value.
Python rounds floats half-to-even; this model rounds half away from zero,
which differs only at exact half-thousandth midpoints (a binary-float
artifact); no verified property inspects this value. -/
def round3 (q : ℚ) : ℚ :=
  (round (q * 1000) : ℚ) / 1000

/-- `calculate_risk` in risk_calculator.py, translated statement by
statement: score and reasons start at 0 and empty, each rule appends its
contribution, and at the end the score is clamped and the level derived. -/
def calculate_risk (inp : RiskInput) : RiskResult :=
  let score : ℤ := 0
  let reasons : List Reason := []
  -- Attendance rule
  let score := if inp.attendance_pct < 60 then score + 30 else score
  let reasons := if inp.attendance_pct < 60 then
      reasons ++ [⟨"attendance_lt_60", 30, [("attendance_pct", inp.attendance_pct)],
        "Attendance below 60%."⟩]
    else reasons
  -- GPA trend rule
  let score := match inp.previous_gpa with
    | some prev => if prev - inp.current_gpa > (0.5 : ℚ) then score + 25 else score
    | none => score
  let reasons := match inp.previous_gpa with
    | some prev => if prev - inp.current_gpa > (0.5 : ℚ) then
        reasons ++ [⟨"gpa_drop_gt_0_5", 25,
          [("previous_gpa", prev), ("current_gpa", inp.current_gpa),
           ("gpa_drop", round3 (prev - inp.current_gpa))],
          "GPA dropped by more than 0.5."⟩]
      else reasons
    | none => reasons
  -- LMS inactivity rule
  let score := if inp.lms_last_active_days > 14 then score + 20 else score
  let reasons := if inp.lms_last_active_days > 14 then
      reasons ++ [⟨"lms_inactive_gt_14_days", 20,
        [("lms_last_active_days", (inp.lms_last_active_days : ℚ))],
        "No LMS activity for more than 14 days."⟩]
    else reasons
  -- Failed/repeated modules rule
  let failed := py_int_or_zero inp.failed_modules_count
  let score := if failed ≥ 2 then score + 25 else if failed ≥ 1 then score + 15 else score
  let reasons := if failed ≥ 2 then
      reasons ++ [⟨"failed_modules_ge_2", 25, [("failed_modules_count", (failed : ℚ))],
        "Two or more failed/repeated modules."⟩]
    else if failed ≥ 1 then
      reasons ++ [⟨"failed_modules_ge_1", 15, [("failed_modules_count", (failed : ℚ))],
        "At least one failed/repeated module."⟩]
    else reasons
  -- Missed assessments rule
  let missed := py_int_or_zero inp.missed_assessments_count
  let score := if missed ≥ 3 then score + 20 else if missed ≥ 1 then score + 10 else score
  let reasons := if missed ≥ 3 then
      reasons ++ [⟨"missed_assessments_ge_3", 20, [("missed_assessments_count", (missed : ℚ))],
        "Missed three or more assessments."⟩]
    else if missed ≥ 1 then
      reasons ++ [⟨"missed_assessments_ge_1", 10, [("missed_assessments_count", (missed : ℚ))],
        "Missed at least one assessment."⟩]
    else reasons
  -- Course load rule
  let credits := py_int_or_zero inp.course_load_credits
  let score := if credits ≥ 21 then score + 10 else score
  let reasons := if credits ≥ 21 then
      reasons ++ [⟨"course_load_credits_ge_21", 10, [("course_load_credits", (credits : ℚ))],
        "High course load (21+ credits)."⟩]
    else reasons
  let score := clamp_score score
  { student_id := inp.student_id, score := score, level := risk_level score, reasons := reasons }

/-! Compositional restatements of the six rule contributions, used to reason
about `calculate_risk`. Each mirrors exactly one rule block of the source. -/

def attendancePoints (inp : RiskInput) : ℤ :=
  if inp.attendance_pct < 60 then 30 else 0

def gpaPoints (inp : RiskInput) : ℤ :=
  match inp.previous_gpa with
  | some prev => if prev - inp.current_gpa > (0.5 : ℚ) then 25 else 0
  | none => 0

def inactivityPoints (inp : RiskInput) : ℤ :=
  if inp.lms_last_active_days > 14 then 20 else 0

def failedPoints (inp : RiskInput) : ℤ :=
  if py_int_or_zero inp.failed_modules_count ≥ 2 then 25
  else if py_int_or_zero inp.failed_modules_count ≥ 1 then 15 else 0

def missedPoints (inp : RiskInput) : ℤ :=
  if py_int_or_zero inp.missed_assessments_count ≥ 3 then 20
  else if py_int_or_zero inp.missed_assessments_count ≥ 1 then 10 else 0

def loadPoints (inp : RiskInput) : ℤ :=
  if py_int_or_zero inp.course_load_credits ≥ 21 then 10 else 0

/-- The unclamped total: the sum of the six independently evaluated rule
contributions. -/
def rawScore (inp : RiskInput) : ℤ :=
  attendancePoints inp + gpaPoints inp + inactivityPoints inp + failedPoints inp
    + missedPoints inp + loadPoints inp

def attendanceReasons (inp : RiskInput) : List Reason :=
  if inp.attendance_pct < 60 then
    [⟨"attendance_lt_60", 30, [("attendance_pct", inp.attendance_pct)],
      "Attendance below 60%."⟩]
  else []

def gpaReasons (inp : RiskInput) : List Reason :=
  match inp.previous_gpa with
  | some prev =>
    if prev - inp.current_gpa > (0.5 : ℚ) then
      [⟨"gpa_drop_gt_0_5", 25,
        [("previous_gpa", prev), ("current_gpa", inp.current_gpa),
         ("gpa_drop", round3 (prev - inp.current_gpa))],
        "GPA dropped by more than 0.5."⟩]
    else []
  | none => []

def inactivityReasons (inp : RiskInput) : List Reason :=
  if inp.lms_last_active_days > 14 then
    [⟨"lms_inactive_gt_14_days", 20,
      [("lms_last_active_days", (inp.lms_last_active_days : ℚ))],
      "No LMS activity for more than 14 days."⟩]
  else []

def failedReasons (inp : RiskInput) : List Reason :=
  if py_int_or_zero inp.failed_modules_count ≥ 2 then
    [⟨"failed_modules_ge_2", 25,
      [("failed_modules_count", (py_int_or_zero inp.failed_modules_count : ℚ))],
      "Two or more failed/repeated modules."⟩]
  else if py_int_or_zero inp.failed_modules_count ≥ 1 then
    [⟨"failed_modules_ge_1", 15,
      [("failed_modules_count", (py_int_or_zero inp.failed_modules_count : ℚ))],
      "At least one failed/repeated module."⟩]
  else []

def missedReasons (inp : RiskInput) : List Reason :=
  if py_int_or_zero inp.missed_assessments_count ≥ 3 then
    [⟨"missed_assessments_ge_3", 20,
      [("missed_assessments_count", (py_int_or_zero inp.missed_assessments_count : ℚ))],
      "Missed three or more assessments."⟩]
  else if py_int_or_zero inp.missed_assessments_count ≥ 1 then
    [⟨"missed_assessments_ge_1", 10,
      [("missed_assessments_count", (py_int_or_zero inp.missed_assessments_count : ℚ))],
      "Missed at least one assessment."⟩]
  else []

def loadReasons (inp : RiskInput) : List Reason :=
  if py_int_or_zero inp.course_load_credits ≥ 21 then
    [⟨"course_load_credits_ge_21", 10,
      [("course_load_credits", (py_int_or_zero inp.course_load_credits : ℚ))],
      "High course load (21+ credits)."⟩]
  else []

/-- All reasons, in the fixed evaluation order of the source. -/
def allReasons (inp : RiskInput) : List Reason :=
  attendanceReasons inp ++ gpaReasons inp ++ inactivityReasons inp
    ++ failedReasons inp ++ missedReasons inp ++ loadReasons inp

lemma ite_add_shift (c : Prop) [Decidable c] (x a : ℤ) :
    (if c then x + a else x) = x + (if c then a else 0) := by
  split_ifs <;> simp

lemma ite_add_shift2 (c : Prop) [Decidable c] (x a b : ℤ) :
    (if c then x + a else x + b) = x + (if c then a else b) := by
  split_ifs <;> rfl

lemma ite_append_shift (c : Prop) [Decidable c] (rs l : List Reason) :
    (if c then rs ++ l else rs) = rs ++ (if c then l else []) := by
  split_ifs <;> simp

lemma ite_append_shift2 (c : Prop) [Decidable c] (rs l1 l2 : List Reason) :
    (if c then rs ++ l1 else rs ++ l2) = rs ++ (if c then l1 else l2) := by
  split_ifs <;> rfl

set_option maxHeartbeats 1000000 in
lemma calculate_risk_def (inp : RiskInput) :
    calculate_risk inp =
      { student_id := inp.student_id,
        score := clamp_score (rawScore inp),
        level := risk_level (clamp_score (rawScore inp)),
        reasons := allReasons inp } := by
  rcases inp with ⟨sid, cg, pg, ap, lms, fm, ma, cl, ao⟩
  cases pg <;>
    simp only [calculate_risk, rawScore, allReasons, attendancePoints, gpaPoints,
      inactivityPoints, failedPoints, missedPoints, loadPoints, attendanceReasons,
      gpaReasons, inactivityReasons, failedReasons, missedReasons, loadReasons,
      ite_add_shift, ite_add_shift2, ite_append_shift, ite_append_shift2,
      List.nil_append, List.append_assoc, zero_add, add_assoc]

/-- The rule identifiers of the triggered rules, in the fixed evaluation
order of `calculate_risk` (attendance, GPA trend, inactivity, failed
modules, missed assessments, course load). -/
def triggeredRules (inp : RiskInput) : List String :=
  (if inp.attendance_pct < 60 then ["attendance_lt_60"] else []) ++
  (match inp.previous_gpa with
   | some prev => if prev - inp.current_gpa > (0.5 : ℚ) then ["gpa_drop_gt_0_5"] else []
   | none => []) ++
  (if inp.lms_last_active_days > 14 then ["lms_inactive_gt_14_days"] else []) ++
  (if py_int_or_zero inp.failed_modules_count ≥ 2 then ["failed_modules_ge_2"]
   else if py_int_or_zero inp.failed_modules_count ≥ 1 then ["failed_modules_ge_1"] else []) ++
  (if py_int_or_zero inp.missed_assessments_count ≥ 3 then ["missed_assessments_ge_3"]
   else if py_int_or_zero inp.missed_assessments_count ≥ 1 then ["missed_assessments_ge_1"]
   else []) ++
  (if py_int_or_zero inp.course_load_credits ≥ 21 then ["course_load_credits_ge_21"] else [])

lemma attendanceReasons_map_rule (inp : RiskInput) :
    (attendanceReasons inp).map Reason.rule =
      (if inp.attendance_pct < 60 then ["attendance_lt_60"] else []) := by
  unfold attendanceReasons; split_ifs <;> rfl

lemma gpaReasons_map_rule (inp : RiskInput) :
    (gpaReasons inp).map Reason.rule =
      (match inp.previous_gpa with
       | some prev => if prev - inp.current_gpa > (0.5 : ℚ) then ["gpa_drop_gt_0_5"] else []
       | none => []) := by
  unfold gpaReasons
  cases inp.previous_gpa with
  | none => rfl
  | some prev => dsimp only; split_ifs <;> rfl

lemma inactivityReasons_map_rule (inp : RiskInput) :
    (inactivityReasons inp).map Reason.rule =
      (if inp.lms_last_active_days > 14 then ["lms_inactive_gt_14_days"] else []) := by
  unfold inactivityReasons; split_ifs <;> rfl

lemma failedReasons_map_rule (inp : RiskInput) :
    (failedReasons inp).map Reason.rule =
      (if py_int_or_zero inp.failed_modules_count ≥ 2 then ["failed_modules_ge_2"]
       else if py_int_or_zero inp.failed_modules_count ≥ 1 then ["failed_modules_ge_1"]
       else []) := by
  unfold failedReasons; split_ifs <;> rfl

lemma missedReasons_map_rule (inp : RiskInput) :
    (missedReasons inp).map Reason.rule =
      (if py_int_or_zero inp.missed_assessments_count ≥ 3 then ["missed_assessments_ge_3"]
       else if py_int_or_zero inp.missed_assessments_count ≥ 1 then ["missed_assessments_ge_1"]
       else []) := by
  unfold missedReasons; split_ifs <;> rfl

lemma loadReasons_map_rule (inp : RiskInput) :
    (loadReasons inp).map Reason.rule =
      (if py_int_or_zero inp.course_load_credits ≥ 21 then ["course_load_credits_ge_21"]
       else []) := by
  unfold loadReasons; split_ifs <;> rfl

lemma allReasons_map_rule (inp : RiskInput) :
    (allReasons inp).map Reason.rule = triggeredRules inp := by
  simp only [allReasons, triggeredRules, List.map_append, attendanceReasons_map_rule,
    gpaReasons_map_rule, inactivityReasons_map_rule, failedReasons_map_rule,
    missedReasons_map_rule, loadReasons_map_rule]

set_option maxHeartbeats 2000000 in
lemma triggeredRules_nodup (inp : RiskInput) : (triggeredRules inp).Nodup := by
  rcases inp with ⟨sid, cg, pg, ap, lms, fm, ma, cl, ao⟩
  unfold triggeredRules
  cases pg <;> dsimp only <;> split_ifs <;> decide

set_option maxHeartbeats 2000000 in
lemma triggeredRules_excl (inp : RiskInput) :
    ¬("failed_modules_ge_1" ∈ triggeredRules inp ∧
      "failed_modules_ge_2" ∈ triggeredRules inp) ∧
    ¬("missed_assessments_ge_1" ∈ triggeredRules inp ∧
      "missed_assessments_ge_3" ∈ triggeredRules inp) := by
  rcases inp with ⟨sid, cg, pg, ap, lms, fm, ma, cl, ao⟩
  unfold triggeredRules
  cases pg <;> dsimp only <;> split_ifs <;> decide

lemma attendanceReasons_points_sum (inp : RiskInput) :
    ((attendanceReasons inp).map Reason.points).sum = attendancePoints inp := by
  unfold attendanceReasons attendancePoints; split_ifs <;> rfl

lemma gpaReasons_points_sum (inp : RiskInput) :
    ((gpaReasons inp).map Reason.points).sum = gpaPoints inp := by
  unfold gpaReasons gpaPoints
  cases inp.previous_gpa with
  | none => rfl
  | some prev => dsimp only; split_ifs <;> rfl

lemma inactivityReasons_points_sum (inp : RiskInput) :
    ((inactivityReasons inp).map Reason.points).sum = inactivityPoints inp := by
  unfold inactivityReasons inactivityPoints; split_ifs <;> rfl

lemma failedReasons_points_sum (inp : RiskInput) :
    ((failedReasons inp).map Reason.points).sum = failedPoints inp := by
  unfold failedReasons failedPoints; split_ifs <;> rfl

lemma missedReasons_points_sum (inp : RiskInput) :
    ((missedReasons inp).map Reason.points).sum = missedPoints inp := by
  unfold missedReasons missedPoints; split_ifs <;> rfl

lemma loadReasons_points_sum (inp : RiskInput) :
    ((loadReasons inp).map Reason.points).sum = loadPoints inp := by
  unfold loadReasons loadPoints; split_ifs <;> rfl

lemma allReasons_points_sum (inp : RiskInput) :
    ((allReasons inp).map Reason.points).sum = rawScore inp := by
  simp only [allReasons, rawScore, List.map_append, List.sum_append,
    attendanceReasons_points_sum, gpaReasons_points_sum, inactivityReasons_points_sum,
    failedReasons_points_sum, missedReasons_points_sum, loadReasons_points_sum]

lemma attendancePoints_nonneg (inp : RiskInput) : 0 ≤ attendancePoints inp := by
  unfold attendancePoints; split_ifs <;> norm_num

lemma gpaPoints_nonneg (inp : RiskInput) : 0 ≤ gpaPoints inp := by
  unfold gpaPoints
  cases inp.previous_gpa with
  | none => norm_num
  | some prev => dsimp only; split_ifs <;> norm_num

lemma inactivityPoints_nonneg (inp : RiskInput) : 0 ≤ inactivityPoints inp := by
  unfold inactivityPoints; split_ifs <;> norm_num

lemma failedPoints_nonneg (inp : RiskInput) : 0 ≤ failedPoints inp := by
  unfold failedPoints; split_ifs <;> norm_num

lemma missedPoints_nonneg (inp : RiskInput) : 0 ≤ missedPoints inp := by
  unfold missedPoints; split_ifs <;> norm_num

lemma loadPoints_nonneg (inp : RiskInput) : 0 ≤ loadPoints inp := by
  unfold loadPoints; split_ifs <;> norm_num

lemma rawScore_nonneg (inp : RiskInput) : 0 ≤ rawScore inp := by
  have h1 := attendancePoints_nonneg inp
  have h2 := gpaPoints_nonneg inp
  have h3 := inactivityPoints_nonneg inp
  have h4 := failedPoints_nonneg inp
  have h5 := missedPoints_nonneg inp
  have h6 := loadPoints_nonneg inp
  unfold rawScore
  omega

lemma clamp_score_mono {s t : ℤ} (h : s ≤ t) : clamp_score s ≤ clamp_score t := by
  unfold clamp_score; omega

/-- The worked example of the spec: attendance 55, GPA 3.5 to 2.8, 20 days
inactive, 2 failed modules, 1 missed assessment, 18 credits. -/
def exampleHighRisk : RiskInput :=
  { student_id := "s-1", current_gpa := 2.8, previous_gpa := some 3.5, attendance_pct := 55,
    lms_last_active_days := 20, failed_modules_count := 2, missed_assessments_count := 1,
    course_load_credits := 18, as_of := none }

/-- C1: for every RiskInput, calculate_risk returns a score in the interval
from 0 to 100, the returned level is exactly risk_level applied to the
returned score, and risk_level maps a score of at most 30 to LOW, 31 to 60
to MEDIUM, and above 60 to HIGH (so exactly 30 is LOW and exactly 60 is
MEDIUM). -/
theorem C1_score_range_and_tier_pure :
    (∀ inp : RiskInput,
        0 ≤ (calculate_risk inp).score ∧ (calculate_risk inp).score ≤ 100 ∧
        (calculate_risk inp).level = risk_level (calculate_risk inp).score) ∧
    (∀ s : ℤ,
        (s ≤ 30 → risk_level s = "LOW") ∧
        (31 ≤ s → s ≤ 60 → risk_level s = "MEDIUM") ∧
        (60 < s → risk_level s = "HIGH")) := by
  constructor
  · intro inp
    rw [calculate_risk_def]
    exact ⟨le_max_left 0 _, max_le (by norm_num) (min_le_left 100 _), rfl⟩
  · intro s
    unfold risk_level
    refine ⟨fun h => ?_, fun h1 h2 => ?_, fun h => ?_⟩ <;> split_ifs <;>
      first | rfl | omega

/-- Witness for C1 at concrete inputs: the worked example and the three
boundary scores 30, 60 and 61. -/
theorem C1_witness :
    (0 ≤ (calculate_risk exampleHighRisk).score ∧
      (calculate_risk exampleHighRisk).score ≤ 100 ∧
      (calculate_risk exampleHighRisk).level =
        risk_level (calculate_risk exampleHighRisk).score) ∧
    risk_level 30 = "LOW" ∧ risk_level 60 = "MEDIUM" ∧ risk_level 61 = "HIGH" :=
  ⟨C1_score_range_and_tier_pure.1 exampleHighRisk,
   (C1_score_range_and_tier_pure.2 30).1 (by decide),
   (C1_score_range_and_tier_pure.2 60).2.1 (by decide) (by decide),
   (C1_score_range_and_tier_pure.2 61).2.2 (by decide)⟩

/-- C5: worsening any single signal while holding the others fixed (lower
attendance, lower current GPA hence a larger GPA drop, more inactivity
days, more failed modules, more missed assessments, more course-load
credits) never decreases the score of calculate_risk. -/
theorem C5_single_signal_monotonicity :
    (∀ (inp : RiskInput) (a : ℚ), a ≤ inp.attendance_pct →
        (calculate_risk inp).score ≤
          (calculate_risk { inp with attendance_pct := a }).score) ∧
    (∀ (inp : RiskInput) (g : ℚ), g ≤ inp.current_gpa →
        (calculate_risk inp).score ≤
          (calculate_risk { inp with current_gpa := g }).score) ∧
    (∀ (inp : RiskInput) (d : ℤ), inp.lms_last_active_days ≤ d →
        (calculate_risk inp).score ≤
          (calculate_risk { inp with lms_last_active_days := d }).score) ∧
    (∀ (inp : RiskInput) (f : ℤ), inp.failed_modules_count ≤ f →
        (calculate_risk inp).score ≤
          (calculate_risk { inp with failed_modules_count := f }).score) ∧
    (∀ (inp : RiskInput) (m : ℤ), inp.missed_assessments_count ≤ m →
        (calculate_risk inp).score ≤
          (calculate_risk { inp with missed_assessments_count := m }).score) ∧
    (∀ (inp : RiskInput) (c : ℤ), inp.course_load_credits ≤ c →
        (calculate_risk inp).score ≤
          (calculate_risk { inp with course_load_credits := c }).score) := by
  refine ⟨?_, ?_, ?_, ?_, ?_, ?_⟩ <;> intro inp x hx <;>
    rcases inp with ⟨sid, cg, pg, ap, lms, fm, ma, cl, ao⟩ <;>
    rw [calculate_risk_def, calculate_risk_def] <;>
    apply clamp_score_mono <;>
    dsimp only [rawScore, attendancePoints, gpaPoints, inactivityPoints, failedPoints,
      missedPoints, loadPoints, py_int_or_zero] <;>
    refine add_le_add (add_le_add (add_le_add (add_le_add (add_le_add ?_ ?_) ?_) ?_) ?_) ?_
  case _ => split_ifs <;> first | omega | linarith
  case _ => exact le_refl _
  all_goals try exact le_refl _
  case _ =>
    cases pg with
    | none => exact le_refl _
    | some prev => dsimp only; split_ifs <;> first | omega | linarith
  all_goals split_ifs <;> first | omega | linarith

/-- Witness for C5: each monotonicity conjunct applied to the worked example,
worsening one signal. -/
theorem C5_witness :
    ((calculate_risk exampleHighRisk).score ≤
      (calculate_risk { exampleHighRisk with attendance_pct := 40 }).score) ∧
    ((calculate_risk exampleHighRisk).score ≤
      (calculate_risk { exampleHighRisk with current_gpa := 2 }).score) ∧
    ((calculate_risk exampleHighRisk).score ≤
      (calculate_risk { exampleHighRisk with lms_last_active_days := 30 }).score) ∧
    ((calculate_risk exampleHighRisk).score ≤
      (calculate_risk { exampleHighRisk with failed_modules_count := 3 }).score) ∧
    ((calculate_risk exampleHighRisk).score ≤
      (calculate_risk { exampleHighRisk with missed_assessments_count := 4 }).score) ∧
    ((calculate_risk exampleHighRisk).score ≤
      (calculate_risk { exampleHighRisk with course_load_credits := 22 }).score) :=
  ⟨C5_single_signal_monotonicity.1 exampleHighRisk 40 (by norm_num [exampleHighRisk]),
   C5_single_signal_monotonicity.2.1 exampleHighRisk 2 (by norm_num [exampleHighRisk]),
   C5_single_signal_monotonicity.2.2.1 exampleHighRisk 30 (by decide),
   C5_single_signal_monotonicity.2.2.2.1 exampleHighRisk 3 (by decide),
   C5_single_signal_monotonicity.2.2.2.2.1 exampleHighRisk 4 (by decide),
   C5_single_signal_monotonicity.2.2.2.2.2 exampleHighRisk 22 (by decide)⟩

/-- C6: the reasons list contains exactly one entry per triggered rule, in
the fixed evaluation order attendance, GPA trend, inactivity, failed
modules, missed assessments, course load; no rule identifier appears
twice, and within the failed-modules and missed-assessments families the
two variants never both fire. -/
theorem C6_reasons_exactly_triggered_rules :
    ∀ inp : RiskInput,
      ((calculate_risk inp).reasons.map Reason.rule = triggeredRules inp) ∧
      ((calculate_risk inp).reasons.map Reason.rule).Nodup ∧
      ((calculate_risk inp).reasons.length = (triggeredRules inp).length) ∧
      ¬("failed_modules_ge_1" ∈ (calculate_risk inp).reasons.map Reason.rule ∧
        "failed_modules_ge_2" ∈ (calculate_risk inp).reasons.map Reason.rule) ∧
      ¬("missed_assessments_ge_1" ∈ (calculate_risk inp).reasons.map Reason.rule ∧
        "missed_assessments_ge_3" ∈ (calculate_risk inp).reasons.map Reason.rule) := by
  intro inp
  have hmap : (calculate_risk inp).reasons.map Reason.rule = triggeredRules inp := by
    rw [calculate_risk_def]; exact allReasons_map_rule inp
  have hlen : (calculate_risk inp).reasons.length = (triggeredRules inp).length := by
    rw [← hmap, List.length_map]
  have hnodup := triggeredRules_nodup inp
  refine ⟨hmap, hmap ▸ hnodup, hlen, ?_, ?_⟩
  · rw [hmap]; exact (triggeredRules_excl inp).1
  · rw [hmap]; exact (triggeredRules_excl inp).2

/-- C7: on the worked example (attendance 55, GPA drop 0.7, 20 inactive
days, 2 failed modules, 1 missed assessment, 18 credits) the triggered
contributions are 30, 25, 20, 25, 10 summing to 110 unclamped, the final
score is 100 after clamping, the level is HIGH, and there are exactly 5
reasons. -/
theorem C7_worked_example :
    ((calculate_risk exampleHighRisk).reasons.map Reason.points = [30, 25, 20, 25, 10]) ∧
    (((calculate_risk exampleHighRisk).reasons.map Reason.points).sum = 110) ∧
    ((calculate_risk exampleHighRisk).score = 100) ∧
    ((calculate_risk exampleHighRisk).level = "HIGH") ∧
    ((calculate_risk exampleHighRisk).reasons.length = 5) := by
  have hraw : rawScore exampleHighRisk = 110 := by
    norm_num [rawScore, attendancePoints, gpaPoints, inactivityPoints, failedPoints,
      missedPoints, loadPoints, py_int_or_zero, exampleHighRisk]
  have hreasons : (calculate_risk exampleHighRisk).reasons.map Reason.points
      = [30, 25, 20, 25, 10] := by
    rw [calculate_risk_def]
    norm_num [allReasons, attendanceReasons, gpaReasons, inactivityReasons, failedReasons,
      missedReasons, loadReasons, py_int_or_zero, exampleHighRisk]
  have hscore : (calculate_risk exampleHighRisk).score = 100 := by
    rw [calculate_risk_def]
    show clamp_score (rawScore exampleHighRisk) = 100
    rw [hraw]; decide
  have hlevel : (calculate_risk exampleHighRisk).level = "HIGH" := by
    rw [calculate_risk_def]
    show risk_level (clamp_score (rawScore exampleHighRisk)) = "HIGH"
    rw [hraw]; decide
  have hlen : (calculate_risk exampleHighRisk).reasons.length = 5 := by
    have h := congrArg List.length hreasons
    rw [List.length_map] at h
    simpa using h
  exact ⟨hreasons, by rw [hreasons]; decide, hscore, hlevel, hlen⟩

/-- C9: the sum of the points entries over the reasons list equals the
unclamped rule-contribution total, that total is never negative (every
rule contribution is positive, so the lower clamp bound is never active),
and the returned score is exactly the minimum of that sum and 100. -/
theorem C9_score_is_min_of_points_sum :
    ∀ inp : RiskInput,
      (((calculate_risk inp).reasons.map Reason.points).sum = rawScore inp) ∧
      (0 ≤ ((calculate_risk inp).reasons.map Reason.points).sum) ∧
      ((calculate_risk inp).score =
        min (((calculate_risk inp).reasons.map Reason.points).sum) 100) := by
  intro inp
  have hsum : ((calculate_risk inp).reasons.map Reason.points).sum = rawScore inp := by
    rw [calculate_risk_def]; exact allReasons_points_sum inp
  have hnn := rawScore_nonneg inp
  refine ⟨hsum, by rw [hsum]; exact hnn, ?_⟩
  rw [hsum, calculate_risk_def]
  show clamp_score (rawScore inp) = min (rawScore inp) 100
  unfold clamp_score
  omega

/-!
Part 2 embeds `src/dropout_prevention_agent/agent/decision_agent.py` and
`src/dropout_prevention_agent/gemini/gemini_client.py`. Python values
passing through JSON and dicts are modelled by `PyVal`; Python exceptions
are modelled by `Except PyExc`, where `PyExc.geminiError` stands for the
`GeminiError` class and `PyExc.otherError` for every exception that is not
a `GeminiError` (transport errors raised by `requests.post`, the JSON
decode error raised by `resp.json()`, `TypeError`, `AttributeError`).
The network is modelled by an explicit `HttpOutcome` argument and the
`json.loads` parser of the model text by an explicit
`jsonLoads : String → Option PyVal` argument. -/

/-- A Python/JSON value as handled by the decision agent. -/
inductive PyVal where
  | pyNone : PyVal
  | pyBool : Bool → PyVal
  | pyInt : ℤ → PyVal
  | pyFloat : ℚ → PyVal
  | pyStr : String → PyVal
  | pyList : List PyVal → PyVal
  | pyDict : List (String × PyVal) → PyVal
deriving Repr

/-- Python dict lookup: `d.get(key)` returning `None` as `none` when the
key is absent. Dicts constructed by this code have distinct keys. -/
def pyLookup : List (String × PyVal) → String → Option PyVal
  | [], _ => none
  | (k, v) :: rest, key => if k = key then some v else pyLookup rest key

/-- Python truthiness of a value (`bool(v)`). -/
def truthy : PyVal → Bool
  | .pyNone => false
  | .pyBool b => b
  | .pyInt n => n ≠ 0
  | .pyFloat q => q ≠ 0
  | .pyStr s => s ≠ ""
  | .pyList xs => !xs.isEmpty
  | .pyDict kvs => !kvs.isEmpty

/-- Python `==` between a value and a string literal: only a `str` can
compare equal to a string. -/
def pyEqStr (v : PyVal) (s : String) : Bool :=
  match v with
  | .pyStr t => t = s
  | _ => false

/-- Python `s.strip()`: remove leading and trailing whitespace. Modelled
over the character list so that it evaluates (Lean's `String.trim` is not
kernel-reducible); `Char.isWhitespace` covers the ASCII whitespace
appearing in this code. -/
def pyStrip (s : String) : String :=
  ⟨((s.data.dropWhile Char.isWhitespace).reverse.dropWhile Char.isWhitespace).reverse⟩

/-- `GeminiClient` in gemini_client.py: immutable configuration. -/
structure GeminiClient where
  api_key : Option String
  model : String

/-- `GeminiClient.is_configured`: `bool(self.api_key)` — false for a
missing key and for the empty string. -/
def GeminiClient.is_configured (c : GeminiClient) : Bool :=
  match c.api_key with
  | none => false
  | some s => s ≠ ""

/-- The Python exceptions relevant to the decision path. `geminiError` is
the repository's `GeminiError` class; `otherError` is any other exception
(`requests` transport errors, `requests` JSON decode errors, `TypeError`,
`AttributeError`), which `DecisionAgent.recommend` does not catch. -/
inductive PyExc where
  | geminiError : String → PyExc
  | otherError : String → PyExc
deriving Repr, DecidableEq

/-- The observable outcome of the single `requests.post` call:
either the HTTP library raises (network failure, timeout), or a response
arrives with a status code, a body text, and the result of parsing the
body as JSON (`none` when `resp.json()` would raise). -/
inductive HttpOutcome where
  | transportError : String → HttpOutcome
  | response : ℤ → String → Option PyVal → HttpOutcome

/-- One step of the navigation `data[key]` for a JSON-derived value:
succeeds exactly when the value is an object containing the key. -/
def navDict (v : PyVal) (k : String) : Option PyVal :=
  match v with
  | .pyDict kvs => pyLookup kvs k
  | _ => none

/-- One step of the navigation `data[0]` for a JSON-derived value:
succeeds (with a value the rest of the chain can consume) exactly when the
value is a non-empty array. -/
def navIndex0 (v : PyVal) : Option PyVal :=
  match v with
  | .pyList (x :: _) => some x
  | _ => none

/-- The navigation `data["candidates"][0]["content"]["parts"][0]["text"]`
of gemini_client.py; in the source any exception raised here is caught and
re-raised as `GeminiError("Unexpected Gemini response shape")`, so `none`
models every failing step. -/
def extractText (data : PyVal) : Option PyVal :=
  ((((navDict data "candidates").bind navIndex0).bind
      (fun v => navDict v "content")).bind
      (fun v => (navDict v "parts").bind navIndex0)).bind
      (fun v => navDict v "text")

/-- `GeminiClient.generate_json` in gemini_client.py. `jsonLoads` models
`json.loads` on the model text; `outcome` models the single
`requests.post` call. Raised exceptions are the `Except.error` values. -/
def generate_json (client : GeminiClient) (jsonLoads : String → Option PyVal)
    (outcome : HttpOutcome) : Except PyExc PyVal :=
  if client.is_configured = false then
    .error (.geminiError "GEMINI_API_KEY not configured")
  else
    match outcome with
    | .transportError msg => .error (.otherError msg)
    | .response status text body =>
      if status ≠ 200 then
        .error (.geminiError ("Gemini API error " ++ toString status ++ ": " ++ text.take 500))
      else
        match body with
        | none => .error (.otherError "requests JSONDecodeError from resp.json")
        | some data =>
          match extractText data with
          | none => .error (.geminiError "Unexpected Gemini response shape")
          | some (.pyStr modelText) =>
            match jsonLoads modelText with
            | some v => .ok v
            | none =>
              .error (.geminiError
                ("Gemini did not return valid JSON. Raw: " ++ modelText.take 500))
          | some _ => .error (.otherError "TypeError from json.loads on a non-string")

/-- `DecisionAgent` in decision_agent.py. -/
structure DecisionAgent where
  gemini : GeminiClient

/-- The HIGH-tier fallback actions of `DecisionAgent._fallback`. -/
def highActions : List PyVal :=
  [.pyDict [("type", .pyStr "Schedule advisor check-in within 48 hours"),
            ("owner", .pyStr "advisor"),
            ("rationale", .pyStr "High rule-based risk score; human review recommended soon.")],
   .pyDict [("type", .pyStr "Offer study plan and tutoring referral"),
            ("owner", .pyStr "advisor"),
            ("rationale", .pyStr "Support academic recovery without punishment.")],
   .pyDict [("type", .pyStr "Review academic plan (failed modules, assessments, load)"),
            ("owner", .pyStr "advisor"),
            ("rationale", .pyStr "Target practical academic barriers indicated by the signals.")]]

/-- The MEDIUM-tier fallback actions of `DecisionAgent._fallback`. -/
def mediumActions : List PyVal :=
  [.pyDict [("type", .pyStr "Advisor outreach email + optional meeting"),
            ("owner", .pyStr "advisor"),
            ("rationale", .pyStr "Moderate risk; early support can prevent escalation.")],
   .pyDict [("type", .pyStr "Share time-management and study resources"),
            ("owner", .pyStr "student"),
            ("rationale", .pyStr "Encourage self-directed improvements.")]]

/-- The LOW-tier fallback actions of `DecisionAgent._fallback`. -/
def lowActions : List PyVal :=
  [.pyDict [("type", .pyStr "Send positive check-in + resources"),
            ("owner", .pyStr "advisor"),
            ("rationale", .pyStr "Low risk; keep supportive contact.")]]

/-- The fixed explanation string of every fallback recommendation. -/
def fallbackExplanation : String :=
  "Fallback recommendations used because Gemini is not configured or unavailable."

/-- The complete HIGH-tier fallback recommendation dict. -/
def highFallbackRec : PyVal :=
  .pyDict [("priority", .pyStr "HIGH"),
           ("recommended_actions", .pyList highActions),
           ("explanation", .pyStr fallbackExplanation)]

/-- The complete MEDIUM-tier fallback recommendation dict. -/
def mediumFallbackRec : PyVal :=
  .pyDict [("priority", .pyStr "MEDIUM"),
           ("recommended_actions", .pyList mediumActions),
           ("explanation", .pyStr fallbackExplanation)]

/-- The complete LOW-tier fallback recommendation dict. -/
def lowFallbackRec : PyVal :=
  .pyDict [("priority", .pyStr "LOW"),
           ("recommended_actions", .pyList lowActions),
           ("explanation", .pyStr fallbackExplanation)]

/-- `DecisionAgent._fallback` in decision_agent.py. The level is read as
`(context.get("risk", ...) or ...).get("level") or "LOW"` with empty-dict
defaults; when the risk entry is truthy but not a dict, the `.get` call
raises `AttributeError`, which nothing catches. -/
def DecisionAgent.fallback (context : List (String × PyVal)) : Except PyExc PyVal :=
  let riskRaw : PyVal := (pyLookup context "risk").getD (.pyDict [])
  let risk : PyVal := if truthy riskRaw then riskRaw else .pyDict []
  match risk with
  | .pyDict rkvs =>
    let levelRaw : PyVal := (pyLookup rkvs "level").getD .pyNone
    let level : PyVal := if truthy levelRaw then levelRaw else .pyStr "LOW"
    if pyEqStr level "HIGH" then .ok highFallbackRec
    else if pyEqStr level "MEDIUM" then .ok mediumFallbackRec
    else .ok lowFallbackRec
  | _ => .error (.otherError "AttributeError: value has no attribute get")

/-- One Python action record passes the per-action checks of
`DecisionAgent._validate`: it is a dict and contains the keys type, owner
and rationale (values are not inspected). -/
def actionOk (a : PyVal) : Bool :=
  match a with
  | .pyDict akvs =>
    !((pyLookup akvs "type").isNone || (pyLookup akvs "owner").isNone
      || (pyLookup akvs "rationale").isNone)
  | _ => false

/-- The `for a in actions` loop of `DecisionAgent._validate`: the first
failing action determines the raised error. -/
def checkActionsList : List PyVal → Option PyExc
  | [] => none
  | a :: rest =>
    match a with
    | .pyDict akvs =>
      if ((pyLookup akvs "type").isNone || (pyLookup akvs "owner").isNone
          || (pyLookup akvs "rationale").isNone) then
        some (.geminiError "Action missing required fields")
      else checkActionsList rest
    | _ => some (.geminiError "Action must be object")

/-- `DecisionAgent._validate` in decision_agent.py. A non-dict argument
raises `AttributeError` at `out.get` (uncaught, since the annotation
`dict` is not enforced and `json.loads` can return any JSON value). -/
def DecisionAgent.validate (out : PyVal) : Except PyExc PyVal :=
  match out with
  | .pyDict kvs =>
    let priority := (pyLookup kvs "priority").getD .pyNone
    if ¬(pyEqStr priority "LOW" || pyEqStr priority "MEDIUM" || pyEqStr priority "HIGH") then
      .error (.geminiError "Invalid priority")
    else
      let actions := (pyLookup kvs "recommended_actions").getD .pyNone
      match actions with
      | .pyList xs =>
        if xs.isEmpty then
          .error (.geminiError "recommended_actions must be a non-empty list")
        else
          match checkActionsList xs with
          | some e => .error e
          | none =>
            let explanation := (pyLookup kvs "explanation").getD .pyNone
            match explanation with
            | .pyStr s =>
              if pyStrip s = "" then .error (.geminiError "explanation required")
              else
                .ok (.pyDict [("priority", priority),
                              ("recommended_actions", actions),
                              ("explanation", explanation)])
            | _ => .error (.geminiError "explanation required")
      | _ => .error (.geminiError "recommended_actions must be a non-empty list")
  | _ => .error (.otherError "AttributeError: value has no attribute get")

/-- `DecisionAgent.recommend` in decision_agent.py: fallback when not
configured, otherwise call the service and validate, returning the
fallback on any `GeminiError`; any other exception propagates. -/
def DecisionAgent.recommend (agent : DecisionAgent) (jsonLoads : String → Option PyVal)
    (outcome : HttpOutcome) (context : List (String × PyVal)) : Except PyExc PyVal :=
  if agent.gemini.is_configured = false then
    DecisionAgent.fallback context
  else
    match generate_json agent.gemini jsonLoads outcome with
    | .ok out =>
      match DecisionAgent.validate out with
      | .ok r => .ok r
      | .error (.geminiError _) => DecisionAgent.fallback context
      | .error e => .error e
    | .error (.geminiError _) => DecisionAgent.fallback context
    | .error e => .error e

/-! The four checks of the validator, in the order the source performs
them, as standalone predicates, and the normalized output it returns. -/

/-- First check: the priority value is exactly one of LOW, MEDIUM, HIGH. -/
def priority_ok (kvs : List (String × PyVal)) : Bool :=
  let p := (pyLookup kvs "priority").getD .pyNone
  pyEqStr p "LOW" || pyEqStr p "MEDIUM" || pyEqStr p "HIGH"

/-- Second check: recommended_actions is a list and it is non-empty. -/
def actions_nonempty (kvs : List (String × PyVal)) : Bool :=
  match (pyLookup kvs "recommended_actions").getD .pyNone with
  | .pyList xs => !xs.isEmpty
  | _ => false

/-- Third check: every action is a dict containing the keys type, owner
and rationale. -/
def actions_fields_ok (kvs : List (String × PyVal)) : Bool :=
  match (pyLookup kvs "recommended_actions").getD .pyNone with
  | .pyList xs => xs.all actionOk
  | _ => false

/-- Fourth check: explanation is a string that is non-empty after
trimming whitespace. -/
def explanation_ok (kvs : List (String × PyVal)) : Bool :=
  match (pyLookup kvs "explanation").getD .pyNone with
  | .pyStr s => !(pyStrip s = "")
  | _ => false

/-- The dict returned by a successful `DecisionAgent._validate`: the three
looked-up values under the three fixed keys, in the source's order. -/
def normalizedRec (kvs : List (String × PyVal)) : PyVal :=
  .pyDict [("priority", (pyLookup kvs "priority").getD .pyNone),
           ("recommended_actions", (pyLookup kvs "recommended_actions").getD .pyNone),
           ("explanation", (pyLookup kvs "explanation").getD .pyNone)]

lemma checkActionsList_eq_none_iff (xs : List PyVal) :
    checkActionsList xs = none ↔ xs.all actionOk = true := by
  induction xs with
  | nil => simp [checkActionsList]
  | cons a rest ih =>
    cases a
    case pyDict akvs =>
      by_cases hc : ((pyLookup akvs "type").isNone || (pyLookup akvs "owner").isNone
          || (pyLookup akvs "rationale").isNone) = true
      · simp [checkActionsList, actionOk, hc]
      · simp only [Bool.not_eq_true] at hc
        simp [checkActionsList, actionOk, hc, ih]
    all_goals simp [checkActionsList, actionOk]

lemma checkActionsList_of_not_all (xs : List PyVal) (h : xs.all actionOk = false) :
    ∃ m, checkActionsList xs = some (.geminiError m) ∧
      (m = "Action must be object" ∨ m = "Action missing required fields") := by
  induction xs with
  | nil => simp at h
  | cons a rest ih =>
    cases a
    case pyDict akvs =>
      by_cases hc : ((pyLookup akvs "type").isNone || (pyLookup akvs "owner").isNone
          || (pyLookup akvs "rationale").isNone) = true
      · exact ⟨"Action missing required fields", by simp [checkActionsList, hc], Or.inr rfl⟩
      · simp only [Bool.not_eq_true] at hc
        have hrest : rest.all actionOk = false := by
          rw [List.all_cons] at h
          have ha : actionOk (.pyDict akvs) = true := by simp [actionOk, hc]
          rw [ha] at h
          simpa using h
        obtain ⟨m, hm, hcases⟩ := ih hrest
        exact ⟨m, by simp [checkActionsList, hc, hm], hcases⟩
    all_goals exact ⟨"Action must be object", rfl, Or.inl rfl⟩

lemma validate_of_priority_fail (kvs : List (String × PyVal))
    (h : priority_ok kvs = false) :
    DecisionAgent.validate (.pyDict kvs) = .error (.geminiError "Invalid priority") := by
  unfold DecisionAgent.validate
  unfold priority_ok at h
  simp only at h
  simp [h]

lemma validate_of_actions_fail (kvs : List (String × PyVal))
    (h1 : priority_ok kvs = true) (h2 : actions_nonempty kvs = false) :
    DecisionAgent.validate (.pyDict kvs) =
      .error (.geminiError "recommended_actions must be a non-empty list") := by
  unfold DecisionAgent.validate
  unfold priority_ok at h1
  unfold actions_nonempty at h2
  simp only at h1 h2
  simp only [h1, Bool.not_eq_true, if_neg, Bool.true_eq_false, not_false_iff, if_false]
  rcases hA : (pyLookup kvs "recommended_actions").getD .pyNone with _ | b | n | q | s | xs | d <;>
    rw [hA] at h2 <;> simp_all

lemma validate_of_fields_fail (kvs : List (String × PyVal))
    (h1 : priority_ok kvs = true) (h2 : actions_nonempty kvs = true)
    (h3 : actions_fields_ok kvs = false) :
    ∃ m, DecisionAgent.validate (.pyDict kvs) = .error (.geminiError m) ∧
      (m = "Action must be object" ∨ m = "Action missing required fields") := by
  unfold DecisionAgent.validate
  unfold priority_ok at h1
  unfold actions_nonempty at h2
  unfold actions_fields_ok at h3
  simp only at h1 h2 h3
  rcases hA : (pyLookup kvs "recommended_actions").getD .pyNone with _ | b | n | q | s | xs | d <;>
    rw [hA] at h2 h3 <;> simp_all
  obtain ⟨m, hm, hcases⟩ := checkActionsList_of_not_all xs (by simpa using h3)
  exact ⟨m, by simp [h1, h2, hm], hcases⟩

lemma validate_of_explanation_fail (kvs : List (String × PyVal))
    (h1 : priority_ok kvs = true) (h2 : actions_nonempty kvs = true)
    (h3 : actions_fields_ok kvs = true) (h4 : explanation_ok kvs = false) :
    DecisionAgent.validate (.pyDict kvs) = .error (.geminiError "explanation required") := by
  unfold DecisionAgent.validate
  unfold priority_ok at h1
  unfold actions_nonempty at h2
  unfold actions_fields_ok at h3
  unfold explanation_ok at h4
  simp only at h1 h2 h3 h4
  rcases hA : (pyLookup kvs "recommended_actions").getD .pyNone with _ | b | n | q | s | xs | d <;>
    rw [hA] at h2 h3 <;> simp_all
  have hchk : checkActionsList xs = none :=
    (checkActionsList_eq_none_iff xs).mpr (by simpa using h3)
  rcases hE : (pyLookup kvs "explanation").getD .pyNone with _ | b | n | q | s2 | ys | d2 <;>
    rw [hE] at h4 <;> simp_all [h1, h2, hchk, hE]

lemma validate_of_success (kvs : List (String × PyVal))
    (h1 : priority_ok kvs = true) (h2 : actions_nonempty kvs = true)
    (h3 : actions_fields_ok kvs = true) (h4 : explanation_ok kvs = true) :
    DecisionAgent.validate (.pyDict kvs) = .ok (normalizedRec kvs) := by
  unfold DecisionAgent.validate normalizedRec
  unfold priority_ok at h1
  unfold actions_nonempty at h2
  unfold actions_fields_ok at h3
  unfold explanation_ok at h4
  simp only at h1 h2 h3 h4
  rcases hA : (pyLookup kvs "recommended_actions").getD .pyNone with _ | b | n | q | s | xs | d <;>
    rw [hA] at h2 h3 <;> simp_all
  have hchk : checkActionsList xs = none :=
    (checkActionsList_eq_none_iff xs).mpr (by simpa using h3)
  rcases hE : (pyLookup kvs "explanation").getD .pyNone with _ | b | n | q | s2 | ys | d2 <;>
    rw [hE] at h4 <;> simp_all [h1, h2, hchk, hA, hE]

lemma validate_eq_ok_shape (out r : PyVal) (h : DecisionAgent.validate out = .ok r) :
    ∃ kvs, out = .pyDict kvs ∧ priority_ok kvs = true ∧ actions_nonempty kvs = true ∧
      actions_fields_ok kvs = true ∧ explanation_ok kvs = true ∧ r = normalizedRec kvs := by
  cases out
  case pyDict kvs =>
    refine ⟨kvs, rfl, ?_⟩
    by_cases h1 : priority_ok kvs = true
    · by_cases h2 : actions_nonempty kvs = true
      · by_cases h3 : actions_fields_ok kvs = true
        · by_cases h4 : explanation_ok kvs = true
          · rw [validate_of_success kvs h1 h2 h3 h4] at h
            injection h with h'
            exact ⟨h1, h2, h3, h4, h'.symm⟩
          · rw [validate_of_explanation_fail kvs h1 h2 h3 (by simpa using h4)] at h
            exact absurd h (by simp)
        · obtain ⟨m, hm, -⟩ := validate_of_fields_fail kvs h1 h2 (by simpa using h3)
          rw [hm] at h
          exact absurd h (by simp)
      · rw [validate_of_actions_fail kvs h1 (by simpa using h2)] at h
        exact absurd h (by simp)
    · rw [validate_of_priority_fail kvs (by simpa using h1)] at h
      exact absurd h (by simp)
  all_goals simp [DecisionAgent.validate] at h

lemma pyLookup_normalized_priority (p a e : PyVal) :
    pyLookup [("priority", p), ("recommended_actions", a), ("explanation", e)]
      "priority" = some p := rfl

lemma pyLookup_normalized_actions (p a e : PyVal) :
    pyLookup [("priority", p), ("recommended_actions", a), ("explanation", e)]
      "recommended_actions" = some a := rfl

lemma pyLookup_normalized_explanation (p a e : PyVal) :
    pyLookup [("priority", p), ("recommended_actions", a), ("explanation", e)]
      "explanation" = some e := rfl

lemma validate_ok_validate (out r : PyVal) (h : DecisionAgent.validate out = .ok r) :
    DecisionAgent.validate r = .ok r := by
  obtain ⟨kvs, -, h1, h2, h3, h4, hr⟩ := validate_eq_ok_shape out r h
  subst hr
  have h1' : priority_ok
      [("priority", (pyLookup kvs "priority").getD .pyNone),
       ("recommended_actions", (pyLookup kvs "recommended_actions").getD .pyNone),
       ("explanation", (pyLookup kvs "explanation").getD .pyNone)] = true := by
    unfold priority_ok at h1 ⊢
    simpa [pyLookup_normalized_priority] using h1
  have h2' : actions_nonempty
      [("priority", (pyLookup kvs "priority").getD .pyNone),
       ("recommended_actions", (pyLookup kvs "recommended_actions").getD .pyNone),
       ("explanation", (pyLookup kvs "explanation").getD .pyNone)] = true := by
    unfold actions_nonempty at h2 ⊢
    simpa [pyLookup_normalized_actions] using h2
  have h3' : actions_fields_ok
      [("priority", (pyLookup kvs "priority").getD .pyNone),
       ("recommended_actions", (pyLookup kvs "recommended_actions").getD .pyNone),
       ("explanation", (pyLookup kvs "explanation").getD .pyNone)] = true := by
    unfold actions_fields_ok at h3 ⊢
    simpa [pyLookup_normalized_actions] using h3
  have h4' : explanation_ok
      [("priority", (pyLookup kvs "priority").getD .pyNone),
       ("recommended_actions", (pyLookup kvs "recommended_actions").getD .pyNone),
       ("explanation", (pyLookup kvs "explanation").getD .pyNone)] = true := by
    unfold explanation_ok at h4 ⊢
    simpa [pyLookup_normalized_explanation] using h4
  unfold normalizedRec
  rw [validate_of_success _ h1' h2' h3' h4']
  unfold normalizedRec
  rw [pyLookup_normalized_priority, pyLookup_normalized_actions,
    pyLookup_normalized_explanation]
  rfl

lemma fallback_cases (context : List (String × PyVal)) :
    DecisionAgent.fallback context = .ok highFallbackRec ∨
    DecisionAgent.fallback context = .ok mediumFallbackRec ∨
    DecisionAgent.fallback context = .ok lowFallbackRec ∨
    ∃ m, DecisionAgent.fallback context = .error (.otherError m) := by
  unfold DecisionAgent.fallback
  dsimp only
  split
  · split_ifs <;> simp
  · exact Or.inr (Or.inr (Or.inr ⟨_, rfl⟩))

lemma validate_highFallbackRec :
    DecisionAgent.validate highFallbackRec = .ok highFallbackRec := by
  rfl

lemma validate_mediumFallbackRec :
    DecisionAgent.validate mediumFallbackRec = .ok mediumFallbackRec := by
  rfl

lemma validate_lowFallbackRec :
    DecisionAgent.validate lowFallbackRec = .ok lowFallbackRec := by
  rfl

lemma fallback_ok_validate (context : List (String × PyVal)) (r : PyVal)
    (h : DecisionAgent.fallback context = .ok r) :
    DecisionAgent.validate r = .ok r := by
  rcases fallback_cases context with hc | hc | hc | ⟨m, hc⟩ <;> rw [hc] at h
  · injection h with h'; rw [← h']; exact validate_highFallbackRec
  · injection h with h'; rw [← h']; exact validate_mediumFallbackRec
  · injection h with h'; rw [← h']; exact validate_lowFallbackRec
  · exact absurd h (by simp)

lemma recommend_ok_validate (agent : DecisionAgent) (jsonLoads : String → Option PyVal)
    (outcome : HttpOutcome) (context : List (String × PyVal)) (r : PyVal)
    (h : DecisionAgent.recommend agent jsonLoads outcome context = .ok r) :
    DecisionAgent.validate r = .ok r := by
  unfold DecisionAgent.recommend at h
  split_ifs at h
  · exact fallback_ok_validate context r h
  · cases hg : generate_json agent.gemini jsonLoads outcome with
    | ok out =>
      rw [hg] at h
      dsimp only at h
      cases hv : DecisionAgent.validate out with
      | ok r2 =>
        rw [hv] at h
        dsimp only at h
        injection h with h'
        rw [← h']
        exact validate_ok_validate out r2 hv
      | error e2 =>
        rw [hv] at h
        cases e2 with
        | geminiError m => exact fallback_ok_validate context r (by simpa using h)
        | otherError m => exact absurd h (by simp)
    | error e =>
      rw [hg] at h
      cases e with
      | geminiError m => exact fallback_ok_validate context r (by simpa using h)
      | otherError m => exact absurd h (by simp)

/-- A client whose api_key is set, as passed to `DecisionAgent` when the
service is configured. -/
def configuredAgent : DecisionAgent := ⟨⟨some "test-key", "gemini-2.0-flash"⟩⟩

/-- A client with no api_key: `is_configured` is false. -/
def unconfiguredAgent : DecisionAgent := ⟨⟨none, "gemini-2.0-flash"⟩⟩

/-- A `json.loads` model under which no model text parses. -/
def noParse : String → Option PyVal := fun _ => none

/-- The keys of a recommendation dict, in order. -/
def pyKeys (v : PyVal) : List String :=
  match v with
  | .pyDict kvs => kvs.map Prod.fst
  | _ => []

/-- An action whose type, owner and rationale are all present but empty. -/
def emptyFieldsAction : PyVal :=
  .pyDict [("type", .pyStr ""), ("owner", .pyStr ""), ("rationale", .pyStr "")]

/-- A candidate recommendation whose single action has empty type, owner
and rationale values. -/
def emptyFieldsCandidate : PyVal :=
  .pyDict [("priority", .pyStr "LOW"),
           ("recommended_actions", .pyList [emptyFieldsAction]),
           ("explanation", .pyStr "x")]

/-- C2: evaluating `DecisionAgent.recommend` with the advisory client
configured. A transport-level network failure and a non-JSON 200 response
body are NOT caught — they surface to the caller as uncaught exceptions —
while a non-success HTTP status is caught and routed to the fallback.
This refutes the claim that every service error of any kind is caught. -/
theorem C2_network_failure_escapes_recommend :
    (DecisionAgent.recommend configuredAgent noParse
        (.transportError "connection refused") []
      = .error (.otherError "connection refused")) ∧
    (DecisionAgent.recommend configuredAgent noParse
        (.response 200 "an html error page" none) []
      = .error (.otherError "requests JSONDecodeError from resp.json")) ∧
    (DecisionAgent.recommend configuredAgent noParse
        (.response 500 "internal error" none) []
      = .ok lowFallbackRec) :=
  ⟨rfl, rfl, rfl⟩

/-- C3 counterexample: a candidate whose single action carries the keys
type, owner and rationale with empty-string values is ACCEPTED by
`DecisionAgent._validate` (it only checks key presence), contradicting
the claim that every action must contain non-empty type, owner and
rationale fields. -/
theorem C3_counterexample_empty_fields_accepted :
    navDict emptyFieldsAction "type" = some (.pyStr "") ∧
    navDict emptyFieldsAction "owner" = some (.pyStr "") ∧
    navDict emptyFieldsAction "rationale" = some (.pyStr "") ∧
    DecisionAgent.validate emptyFieldsCandidate = .ok emptyFieldsCandidate :=
  ⟨rfl, rfl, rfl, rfl⟩

/-- C3 (amended): the validator checks, in order: priority exactly one of
LOW, MEDIUM, HIGH; recommended_actions a non-empty list; every action a
dict CONTAINING the keys type, owner and rationale (presence only — the
values are not inspected); explanation a string non-empty after trimming.
The first failing check determines the rejection, with no partial repair;
when all pass, the normalized three-key dict is returned. -/
theorem C3_validation_order_key_presence :
    ∀ kvs : List (String × PyVal),
      (priority_ok kvs = false →
        DecisionAgent.validate (.pyDict kvs) = .error (.geminiError "Invalid priority")) ∧
      (priority_ok kvs = true → actions_nonempty kvs = false →
        DecisionAgent.validate (.pyDict kvs) =
          .error (.geminiError "recommended_actions must be a non-empty list")) ∧
      (priority_ok kvs = true → actions_nonempty kvs = true → actions_fields_ok kvs = false →
        ∃ m, DecisionAgent.validate (.pyDict kvs) = .error (.geminiError m) ∧
          (m = "Action must be object" ∨ m = "Action missing required fields")) ∧
      (priority_ok kvs = true → actions_nonempty kvs = true → actions_fields_ok kvs = true →
        explanation_ok kvs = false →
        DecisionAgent.validate (.pyDict kvs) = .error (.geminiError "explanation required")) ∧
      (priority_ok kvs = true → actions_nonempty kvs = true → actions_fields_ok kvs = true →
        explanation_ok kvs = true →
        DecisionAgent.validate (.pyDict kvs) = .ok (normalizedRec kvs)) :=
  fun kvs =>
    ⟨validate_of_priority_fail kvs, validate_of_actions_fail kvs,
     validate_of_fields_fail kvs, validate_of_explanation_fail kvs,
     validate_of_success kvs⟩

/-- Witness for C3 (amended): one concrete input per branch of the
validator. -/
theorem C3_witness :
    (DecisionAgent.validate (.pyDict []) = .error (.geminiError "Invalid priority")) ∧
    (DecisionAgent.validate (.pyDict [("priority", .pyStr "LOW")]) =
      .error (.geminiError "recommended_actions must be a non-empty list")) ∧
    (∃ m, DecisionAgent.validate (.pyDict [("priority", .pyStr "LOW"),
        ("recommended_actions", .pyList [.pyStr "not an object"])]) =
        .error (.geminiError m) ∧
      (m = "Action must be object" ∨ m = "Action missing required fields")) ∧
    (DecisionAgent.validate (.pyDict [("priority", .pyStr "LOW"),
        ("recommended_actions", .pyList lowActions), ("explanation", .pyStr "  ")]) =
      .error (.geminiError "explanation required")) ∧
    (DecisionAgent.validate (.pyDict [("priority", .pyStr "HIGH"),
        ("recommended_actions", .pyList lowActions), ("explanation", .pyStr "ok")]) =
      .ok (normalizedRec [("priority", .pyStr "HIGH"),
        ("recommended_actions", .pyList lowActions), ("explanation", .pyStr "ok")])) :=
  ⟨(C3_validation_order_key_presence []).1 rfl,
   (C3_validation_order_key_presence [("priority", .pyStr "LOW")]).2.1 rfl rfl,
   (C3_validation_order_key_presence [("priority", .pyStr "LOW"),
      ("recommended_actions", .pyList [.pyStr "not an object"])]).2.2.1 rfl rfl rfl,
   (C3_validation_order_key_presence [("priority", .pyStr "LOW"),
      ("recommended_actions", .pyList lowActions),
      ("explanation", .pyStr "  ")]).2.2.2.1 rfl rfl rfl rfl,
   (C3_validation_order_key_presence [("priority", .pyStr "HIGH"),
      ("recommended_actions", .pyList lowActions),
      ("explanation", .pyStr "ok")]).2.2.2.2 rfl rfl rfl rfl⟩

/-- C4 counterexample: with the advisory client configured and the
network unreachable, `DecisionAgent.recommend` on a HIGH-tier context
propagates the uncaught transport exception instead of returning any
recommendation — so it does NOT return a validator-passing recommendation
for every tier regardless of advisory-service availability. -/
theorem C4_counterexample_raises_when_unreachable :
    DecisionAgent.recommend configuredAgent noParse
        (.transportError "network unreachable")
        [("risk", .pyDict [("level", .pyStr "HIGH")])]
      = .error (.otherError "network unreachable") :=
  rfl

/-- C4 (amended): the fallback output passes the validator for every
context on which the fallback succeeds (in particular for each of the
three tier contexts, shown explicitly); every recommendation that
`DecisionAgent.recommend` actually returns — fallback-produced or
service-produced — passes the validator; and for an unconfigured agent
`recommend` is the fallback whatever the service outcome, so there it is
availability-independent. (With a configured client, transport errors and
non-JSON 200 bodies make `recommend` raise instead of returning — the C2
bug — which is the only departure from the original claim.) -/
theorem C4_fallback_passes_validation :
    (∀ (context : List (String × PyVal)) (r : PyVal),
        DecisionAgent.fallback context = .ok r → DecisionAgent.validate r = .ok r) ∧
    (∀ (agent : DecisionAgent) (jsonLoads : String → Option PyVal) (outcome : HttpOutcome)
        (context : List (String × PyVal)) (r : PyVal),
        DecisionAgent.recommend agent jsonLoads outcome context = .ok r →
        DecisionAgent.validate r = .ok r) ∧
    (∀ (agent : DecisionAgent) (jsonLoads : String → Option PyVal) (outcome : HttpOutcome)
        (context : List (String × PyVal)),
        agent.gemini.is_configured = false →
        DecisionAgent.recommend agent jsonLoads outcome context
          = DecisionAgent.fallback context) ∧
    (DecisionAgent.fallback [("risk", .pyDict [("level", .pyStr "HIGH")])]
       = .ok highFallbackRec ∧
     DecisionAgent.validate highFallbackRec = .ok highFallbackRec) ∧
    (DecisionAgent.fallback [("risk", .pyDict [("level", .pyStr "MEDIUM")])]
       = .ok mediumFallbackRec ∧
     DecisionAgent.validate mediumFallbackRec = .ok mediumFallbackRec) ∧
    (DecisionAgent.fallback [("risk", .pyDict [("level", .pyStr "LOW")])]
       = .ok lowFallbackRec ∧
     DecisionAgent.validate lowFallbackRec = .ok lowFallbackRec) :=
  ⟨fallback_ok_validate, recommend_ok_validate,
   fun agent jsonLoads outcome context h => by
     unfold DecisionAgent.recommend
     simp [h],
   ⟨rfl, validate_highFallbackRec⟩, ⟨rfl, validate_mediumFallbackRec⟩,
   ⟨rfl, validate_lowFallbackRec⟩⟩

/-- Witness for C4 (amended): the fallback conjunct at the empty context,
the recommend conjunct at an unconfigured agent with a MEDIUM-tier
context, and the unconfigured-agent conjunct at a concrete outcome. -/
theorem C4_witness :
    DecisionAgent.validate lowFallbackRec = .ok lowFallbackRec ∧
    DecisionAgent.validate mediumFallbackRec = .ok mediumFallbackRec ∧
    DecisionAgent.recommend unconfiguredAgent noParse (.response 200 "irrelevant" none) []
      = DecisionAgent.fallback [] :=
  ⟨C4_fallback_passes_validation.1 [] lowFallbackRec rfl,
   C4_fallback_passes_validation.2.1 unconfiguredAgent noParse (.transportError "down")
     [("risk", .pyDict [("level", .pyStr "MEDIUM")])] mediumFallbackRec rfl,
   C4_fallback_passes_validation.2.2.1 unconfiguredAgent noParse
     (.response 200 "irrelevant" none) [] rfl⟩

/-- C8 counterexample: the fallback recommendation for a HIGH context has
exactly the keys priority, recommended_actions and explanation — there is
no source key at all, so it is not tagged source=fallback as claimed. -/
theorem C8_counterexample_no_source_tag :
    DecisionAgent.fallback [("risk", .pyDict [("level", .pyStr "HIGH")])]
      = .ok highFallbackRec ∧
    pyKeys highFallbackRec = ["priority", "recommended_actions", "explanation"] ∧
    navDict highFallbackRec "source" = none ∧
    ¬ navDict highFallbackRec "source" = some (.pyStr "fallback") :=
  ⟨rfl, rfl, rfl, fun h => Option.noConfusion h⟩

/-- C8 (amended): recommendations carry no source tag at all. Every value
returned by `DecisionAgent.recommend` is a dict with exactly the keys
priority, recommended_actions and explanation, and looking up a source
key yields nothing; the producing path is not recorded on the value. -/
theorem C8_amended_no_source_key :
    ∀ (agent : DecisionAgent) (jsonLoads : String → Option PyVal) (outcome : HttpOutcome)
      (context : List (String × PyVal)) (r : PyVal),
      DecisionAgent.recommend agent jsonLoads outcome context = .ok r →
      pyKeys r = ["priority", "recommended_actions", "explanation"] ∧
      navDict r "source" = none := by
  intro agent jsonLoads outcome context r h
  have hv := recommend_ok_validate agent jsonLoads outcome context r h
  obtain ⟨kvs, -, -, -, -, -, hr⟩ := validate_eq_ok_shape r r hv
  constructor
  · rw [hr]; rfl
  · rw [hr]; rfl

/-- Witness for C8 (amended) at an unconfigured agent: the returned
fallback recommendation has the three fixed keys and no source key. -/
theorem C8_witness :
    pyKeys lowFallbackRec = ["priority", "recommended_actions", "explanation"] ∧
    navDict lowFallbackRec "source" = none :=
  C8_amended_no_source_key unconfiguredAgent noParse (.transportError "down") []
    lowFallbackRec rfl

/-- C10: when the context has no risk entry, or the risk dict has no
level field, or the level is a string that is neither HIGH nor MEDIUM,
the fallback produces the LOW recommendation: priority LOW with the
single positive check-in action. -/
theorem C10_missing_or_unknown_level_gives_low :
    (∀ kvs : List (String × PyVal), pyLookup kvs "risk" = none →
        DecisionAgent.fallback kvs = .ok lowFallbackRec) ∧
    (∀ (kvs rkvs : List (String × PyVal)),
        pyLookup kvs "risk" = some (.pyDict rkvs) → pyLookup rkvs "level" = none →
        DecisionAgent.fallback kvs = .ok lowFallbackRec) ∧
    (∀ (kvs rkvs : List (String × PyVal)) (s : String),
        pyLookup kvs "risk" = some (.pyDict rkvs) →
        pyLookup rkvs "level" = some (.pyStr s) →
        s ≠ "HIGH" → s ≠ "MEDIUM" →
        DecisionAgent.fallback kvs = .ok lowFallbackRec) ∧
    (navDict lowFallbackRec "priority" = some (.pyStr "LOW")) ∧
    (navDict lowFallbackRec "recommended_actions" = some (.pyList lowActions)) ∧
    (lowActions.length = 1) := by
  refine ⟨?_, ?_, ?_, rfl, rfl, rfl⟩
  · intro kvs h
    unfold DecisionAgent.fallback
    rw [h]
    rfl
  · intro kvs rkvs h1 h2
    rcases rkvs with _ | ⟨p, rest⟩
    · unfold DecisionAgent.fallback
      rw [h1]
      rfl
    · unfold DecisionAgent.fallback
      rw [h1]
      simp [truthy, h2, pyEqStr]
  · intro kvs rkvs s h1 h2 h3 h4
    rcases rkvs with _ | ⟨p, rest⟩
    · simp [pyLookup] at h2
    · unfold DecisionAgent.fallback
      rw [h1]
      by_cases hs : s = ""
      · subst hs
        simp [truthy, h2, pyEqStr]
      · simp [truthy, h2, pyEqStr, hs, h3, h4]

/-- Witness for C10: a context with no risk entry, one whose risk dict has
no level, and one with the unrecognized level SEVERE. -/
theorem C10_witness :
    DecisionAgent.fallback [] = .ok lowFallbackRec ∧
    DecisionAgent.fallback [("risk", .pyDict [("score", .pyInt 90)])] = .ok lowFallbackRec ∧
    DecisionAgent.fallback [("risk", .pyDict [("level", .pyStr "SEVERE")])]
      = .ok lowFallbackRec :=
  ⟨C10_missing_or_unknown_level_gives_low.1 [] rfl,
   C10_missing_or_unknown_level_gives_low.2.1 [("risk", .pyDict [("score", .pyInt 90)])]
     [("score", .pyInt 90)] rfl rfl,
   C10_missing_or_unknown_level_gives_low.2.2.1
     [("risk", .pyDict [("level", .pyStr "SEVERE")])] [("level", .pyStr "SEVERE")]
     "SEVERE" rfl rfl (by decide) (by decide)⟩

end DropoutPrevention
